import Mathlib

/-!
Shallow embedding of `src/agent/weather.py`.

The deterministic core of the repository is:
  * `get_num_forecasts` : parse an ISO-8601 `end_time` (after replacing the
    character Z with +00:00), subtract the current UTC time, and return
    `max(0, int(delta_in_hours // 3) + 1)`;
  * `get_weather_forecast` : a try/except boundary around window computation,
    provider fetch, selection of the last entry, unit conversion and
    formatting; any failure is logged and turned into a fixed apology string;
  * `kelvin_to_celsius` and the `FORECAST_TEMPLATE` formatting.

Numbers are modelled with `Rat` (Python floats idealised as exact rationals),
fallible steps with `Except String`/`Option`, and the external weather
provider with an oracle function passed as an argument.  The model of
`datetime.fromisoformat` follows the CPython 3.10 grammar
`YYYY-MM-DD[*HH[:MM[:SS[.fff[fff]]]][(+|-)HH:MM[:SS[.ffffff]]]]` implemented
in `Lib/datetime.py` (`_parse_isoformat_date`, `_parse_hh_mm_ss_ff`,
`_parse_isoformat_time`), including constructor range validation.
-/

/-- The character for a decimal digit `n % 10`, as produced by number
formatting. -/
def digitChar (n : Nat) : Char := Char.ofNat (48 + n % 10)

/-- Decimal digits of a natural number, most significant first. -/
def natDigits (n : Nat) : List Char :=
  if h : n < 10 then [digitChar n]
  else natDigits (n / 10) ++ [digitChar (n % 10)]
decreasing_by
  exact Nat.div_lt_self (Nat.lt_of_lt_of_le (by norm_num) (Nat.le_of_not_lt h)) (by norm_num)

/-- Decimal rendering of a natural number. -/
def natToStr (n : Nat) : String := String.mk (natDigits n)

/-- Decimal rendering of an integer. -/
def intToStr (i : Int) : String :=
  if i < 0 then "-" ++ natToStr i.natAbs else natToStr i.natAbs

/-- Round to the nearest integer, ties to the even neighbour (the rounding
used by Python float formatting). -/
def roundHalfEven (q : ℚ) : ℤ :=
  let f := ⌊q⌋
  let r := q - f
  if r < 1/2 then f
  else if 1/2 < r then f + 1
  else if f % 2 = 0 then f else f + 1

/-- Model of the Python format spec `.2f` on an exact rational value: the
value rounded to hundredths, rendered with exactly two digits after the
decimal point. -/
def formatTwoDec (q : ℚ) : String :=
  let n : ℤ := roundHalfEven (q * 100)
  let sign := if n < 0 then "-" else ""
  let m : ℕ := n.natAbs
  sign ++ natToStr (m / 100) ++ "." ++ String.mk [digitChar (m % 100 / 10), digitChar (m % 10)]

/-- Model of Python `str()` applied to the numeric values that are passed
through the template without a precision constraint.  An integral value
prints as in Python (`40.0`); a non-integral value is rendered as an exact
fraction (a modelling simplification: no claim inspects that case). -/
def pyStr (q : ℚ) : String :=
  if q.den = 1 then intToStr q.num ++ ".0"
  else intToStr q.num ++ "/" ++ natToStr q.den

/-- Model of `end_time.replace("Z", "+00:00")` from line 113: every
occurrence of the character Z is replaced, not only a trailing one. -/
def replaceZ (s : String) : String :=
  String.mk (s.data.flatMap (fun c => if c = 'Z' then "+00:00".data else [c]))

/-- Modelled from the spec: the trailing-only normalization described by
the specification (only a trailing Z UTC designator is rewritten), used as
a comparison point for the global replacement the code performs. -/
def replaceTrailingZOnly (s : String) : String :=
  match s.data.getLast? with
  | some 'Z' => String.mk (s.data.dropLast ++ "+00:00".data)
  | _ => s

/-- Numeric value of a digit character. -/
def digitVal (c : Char) : Nat := c.toNat - 48

/-- Parse exactly two decimal digits, returning the value and the rest. -/
def parse2 : List Char → Option (Nat × List Char)
  | a :: b :: rest =>
    if a.isDigit && b.isDigit then some (10 * digitVal a + digitVal b, rest) else none
  | _ => none

/-- Model of `_parse_isoformat_date`: exactly `YYYY-MM-DD`, all digits. -/
def parseDate : List Char → Option (Nat × Nat × Nat)
  | [y1, y2, y3, y4, s1, m1, m2, s2, d1, d2] =>
    if y1.isDigit && y2.isDigit && y3.isDigit && y4.isDigit && s1 == '-'
        && m1.isDigit && m2.isDigit && s2 == '-' && d1.isDigit && d2.isDigit then
      some (1000 * digitVal y1 + 100 * digitVal y2 + 10 * digitVal y3 + digitVal y4,
            10 * digitVal m1 + digitVal m2,
            10 * digitVal d1 + digitVal d2)
    else none
  | _ => none

/-- Model of `_parse_hh_mm_ss_ff`: parses `HH[:MM[:SS[.fff[fff]]]]` into
(hour, minute, second, microsecond), with no range validation. -/
def parseHMSF (l : List Char) : Option (Nat × Nat × Nat × Nat) :=
  match parse2 l with
  | none => none
  | some (hh, r1) =>
    match r1 with
    | [] => some (hh, 0, 0, 0)
    | c1 :: r2 =>
      if c1 = ':' then
        match parse2 r2 with
        | none => none
        | some (mm, r3) =>
          match r3 with
          | [] => some (hh, mm, 0, 0)
          | c2 :: r4 =>
            if c2 = ':' then
              match parse2 r4 with
              | none => none
              | some (ss, r5) =>
                match r5 with
                | [] => some (hh, mm, ss, 0)
                | c3 :: r6 =>
                  if c3 = '.' then
                    match r6 with
                    | [a, b, c] =>
                      if a.isDigit && b.isDigit && c.isDigit then
                        some (hh, mm, ss,
                          1000 * (100 * digitVal a + 10 * digitVal b + digitVal c))
                      else none
                    | [a, b, c, d, e, f] =>
                      if a.isDigit && b.isDigit && c.isDigit
                          && d.isDigit && e.isDigit && f.isDigit then
                        some (hh, mm, ss,
                          100000 * digitVal a + 10000 * digitVal b + 1000 * digitVal c
                            + 100 * digitVal d + 10 * digitVal e + digitVal f)
                      else none
                    | _ => none
                  else none
            else none
      else none

/-- Model of `_parse_isoformat_time`: time components plus an optional UTC
offset in microseconds (`none` means a naive time).  The timezone part, when
present, must have length 5, 8 or 15 after the sign, and the resulting
offset must be strictly within 24 hours (the `timezone` constructor bound). -/
def parseIsoTime (l : List Char) : Option ((Nat × Nat × Nat × Nat) × Option Int) :=
  if l.length < 2 then none
  else
    match (l.findIdx? (· == '-')).orElse (fun _ => l.findIdx? (· == '+')) with
    | none =>
      match parseHMSF l with
      | none => none
      | some tc => some (tc, none)
    | some i =>
      match parseHMSF (l.take i) with
      | none => none
      | some tc =>
        let tzstr := l.drop (i + 1)
        if tzstr.length = 5 ∨ tzstr.length = 8 ∨ tzstr.length = 15 then
          match parseHMSF tzstr with
          | none => none
          | some (th, tm, ts, tf) =>
            if th = 0 ∧ tm = 0 ∧ ts = 0 ∧ tf = 0 then some (tc, some 0)
            else
              let sign : Int := if l.getD i ' ' = '-' then -1 else 1
              let offMicros : Int :=
                sign * (th * 3600000000 + tm * 60000000 + ts * 1000000 + tf)
              if -86400000000 < offMicros ∧ offMicros < 86400000000 then
                some (tc, some offMicros)
              else none
        else none

/-- Gregorian leap-year test, as in `datetime`. -/
def isLeap (y : Nat) : Bool := y % 4 == 0 && (y % 100 != 0 || y % 400 == 0)

/-- Days in a month (month numbered 1..12). -/
def daysInMonth (y m : Nat) : Nat :=
  match m with
  | 1 => 31 | 2 => if isLeap y then 29 else 28 | 3 => 31 | 4 => 30
  | 5 => 31 | 6 => 30 | 7 => 31 | 8 => 31 | 9 => 30 | 10 => 31
  | 11 => 30 | 12 => 31 | _ => 0

/-- Range validation performed by the `datetime` constructor on the date. -/
def validDate (y m d : Nat) : Prop :=
  1 ≤ y ∧ 1 ≤ m ∧ m ≤ 12 ∧ 1 ≤ d ∧ d ≤ daysInMonth y m

instance (y m d : Nat) : Decidable (validDate y m d) := by
  unfold validDate; infer_instance

/-- A parsed `datetime` value: date, time and an optional fixed UTC offset
in microseconds (`none` models a naive datetime). -/
structure PyDateTime where
  year : Nat
  month : Nat
  day : Nat
  hour : Nat
  minute : Nat
  second : Nat
  microsecond : Nat
  tzOffsetMicros : Option Int
deriving DecidableEq, Repr

/-- Model of `datetime.fromisoformat` (CPython 3.10): the first ten
characters are the date, the character at index 10 (any character) separates
it from the time part, and the constructor validates ranges.  `none` models
a ValueError. -/
def fromisoformat (s : String) : Option PyDateTime :=
  let l := s.data
  match parseDate (l.take 10) with
  | none => none
  | some (y, mo, d) =>
    let tstr := l.drop 11
    if tstr.isEmpty then
      if validDate y mo d ∧ l.length ≤ 11 then
        some ⟨y, mo, d, 0, 0, 0, 0, none⟩
      else none
    else
      match parseIsoTime tstr with
      | none => none
      | some ((hh, mi, ss, ff), off) =>
        if validDate y mo d ∧ hh ≤ 23 ∧ mi ≤ 59 ∧ ss ≤ 59 then
          some ⟨y, mo, d, hh, mi, ss, ff, off⟩
        else none

/-- Cumulative days before a month in a non-leap year (`_DAYS_BEFORE_MONTH`). -/
def daysBeforeMonthTable : Nat → Nat
  | 1 => 0 | 2 => 31 | 3 => 59 | 4 => 90 | 5 => 120 | 6 => 151
  | 7 => 181 | 8 => 212 | 9 => 243 | 10 => 273 | 11 => 304 | 12 => 334
  | _ => 0

/-- Days before month `m` of year `y` (`_days_before_month`). -/
def daysBeforeMonth (y m : Nat) : Nat :=
  daysBeforeMonthTable m + (if 2 < m && isLeap y then 1 else 0)

/-- Days before January 1 of year `y` (`_days_before_year`). -/
def daysBeforeYear (y : Nat) : Nat :=
  (y - 1) * 365 + (y - 1) / 4 - (y - 1) / 100 + (y - 1) / 400

/-- Proleptic-Gregorian ordinal of a date (`date.toordinal`); the ordinal of
0001-01-01 is 1, that of 1970-01-01 is 719163. -/
def toordinal (y m d : Nat) : Nat := daysBeforeYear y + daysBeforeMonth y m + d

/-- Seconds since the Unix epoch, in UTC, of an aware datetime whose UTC
offset is `offMicros` microseconds; this is what subtraction of two aware
datetimes measures in Python. -/
def utcEpochSeconds (dt : PyDateTime) (offMicros : Int) : ℚ :=
  ((toordinal dt.year dt.month dt.day : ℚ) - 719163) * 86400
    + dt.hour * 3600 + dt.minute * 60 + dt.second
    + (dt.microsecond : ℚ) / 1000000
    - (offMicros : ℚ) / 1000000

/-- The window formula `int((delta_in_hours // 3) + 1)` of line 117, before
the clamp: floor division of the hour gap by 3, plus one. -/
def windowFormulaRaw (h : ℚ) : ℤ := ⌊h / 3⌋ + 1

/-- Model of `get_num_forecasts` (lines 112-117).  The current UTC time
`datetime.now(timezone.utc)` is passed explicitly as `now`, in epoch
seconds.  A parse failure models the ValueError of `fromisoformat`; a naive
parsed datetime models the TypeError raised by `end_time_dt - now` when one
operand lacks a timezone. -/
def get_num_forecasts (end_time : String) (now : ℚ) : Except String Int :=
  match fromisoformat (replaceZ end_time) with
  | none => .error ("Invalid isoformat string: " ++ replaceZ end_time)
  | some dt =>
    match dt.tzOffsetMicros with
    | none => .error "can\x27t subtract offset-naive and offset-aware datetimes"
    | some off =>
      .ok (max 0 (windowFormulaRaw ((utcEpochSeconds dt off - now) / 3600)))

/-- `kelvin_to_celsius` (lines 108-109). -/
def kelvin_to_celsius (kelvin : ℚ) : ℚ := kelvin - 273.15

/-- One forecast entry of the provider response: the fields of a pyowm
`Weather` object that `get_weather_forecast` reads.  `temperature`, `wind`
and `rain` are dictionaries (association lists), as in the library. -/
structure ForecastEntry where
  referenceTimeIso : String
  temperature : List (String × ℚ)
  wind : List (String × ℚ)
  rain : List (String × ℚ)
  humidity : ℚ
  detailed_status : String
deriving DecidableEq, Repr

/-- Python dictionary lookup: the value at a key, if present. -/
def dictGet (d : List (String × ℚ)) (k : String) : Option ℚ :=
  match d.find? (fun p => p.1 == k) with
  | some p => some p.2
  | none => none

/-- Python `dict.get(key, default)`. -/
def dictGetD (d : List (String × ℚ)) (k : String) (v : ℚ) : ℚ :=
  (dictGet d k).getD v

/-- Python `dict[key]`: a missing key raises a KeyError. -/
def keyGet (d : List (String × ℚ)) (k : String) : Except String ℚ :=
  match dictGet d k with
  | some v => .ok v
  | none => .error ("KeyError: " ++ k)

/-- Model of `FORECAST_TEMPLATE.format(...)` (lines 87-97): the fixed
multi-line template, with the four temperature fields rendered by the
format spec `.2f` and the remaining numeric fields passed through. -/
def FORECAST_TEMPLATE_format (location time : String)
    (temperature min_temperature max_temperature feels_like : ℚ)
    (rain_chance wind_speed wind_direction humidity : ℚ) (status : String) : String :=
  "\nThe weather forecast for " ++ location ++ " at " ++ time
    ++ " is as follows:\n- Temperature: " ++ formatTwoDec temperature
    ++ "°C.\n- Min Temperature: " ++ formatTwoDec min_temperature
    ++ "°C.\n- Max Temperature: " ++ formatTwoDec max_temperature
    ++ "°C.\n- Feels Like Temperature: " ++ formatTwoDec feels_like
    ++ "°C.\n- Rain: " ++ pyStr rain_chance
    ++ "%\n- Winds: " ++ pyStr wind_speed ++ " m/s " ++ pyStr wind_direction
    ++ "°\n- Humidity: " ++ pyStr humidity
    ++ "%\n- Status: " ++ status ++ "\n"

/-- Lines 151-168: read the selected forecast entry and format the report.
The dictionary indexing steps can raise a KeyError; `rain.get("3h", 0)`
defaults to 0; all four temperatures go through `kelvin_to_celsius`. -/
def renderForecast (location : String) (f : ForecastEntry) : Except String String :=
  (keyGet f.temperature "temp").bind fun temp =>
  (keyGet f.temperature "temp_min").bind fun tmin =>
  (keyGet f.temperature "temp_max").bind fun tmax =>
  (keyGet f.temperature "feels_like").bind fun feels =>
  (keyGet f.wind "speed").bind fun speed =>
  (keyGet f.wind "deg").bind fun deg =>
  Except.ok (FORECAST_TEMPLATE_format location f.referenceTimeIso
    (kelvin_to_celsius temp) (kelvin_to_celsius tmin) (kelvin_to_celsius tmax)
    (kelvin_to_celsius feels) (dictGetD f.rain "3h" 0 * 100)
    speed deg f.humidity f.detailed_status)

/-- The fixed apology string of lines 173-174. -/
def apologyString : String :=
  "I\x27m sorry, but I couldn\x27t retrieve the weather forecasts at this time. Please try again later :(."

/-- The log line of line 172, for a caught error `e`. -/
def logMessage (e : String) : String :=
  "Error occurred while retrieving weather forecast: " ++ e

/-- The body of the `try` block of `get_weather_forecast` (lines 146-170):
window computation, provider fetch, selection of the last entry
(`forecasts[-1]`, an IndexError on an empty list), then rendering.  The
provider call `mgr.forecast_at_place(location, "3h", limit).forecast` is an
external collaborator, modelled by the oracle `provider`. -/
def weatherBody (location end_time : String) (now : ℚ)
    (provider : Int → Except String (List ForecastEntry)) : Except String String :=
  match get_num_forecasts end_time now with
  | .error e => .error e
  | .ok limit =>
    match provider limit with
    | .error e => .error e
    | .ok forecasts =>
      match forecasts.getLast? with
      | none => .error "IndexError: list index out of range"
      | some forecast => renderForecast location forecast

/-- Model of `get_weather_forecast` (lines 120-174): the try/except
boundary.  On success the report is returned and nothing is logged; any
error is logged and replaced by the fixed apology string.  The second
component is the list of log lines emitted by the call. -/
def get_weather_forecast (location end_time : String) (now : ℚ)
    (provider : Int → Except String (List ForecastEntry)) : String × List String :=
  match weatherBody location end_time now provider with
  | .ok ans => (ans, [])
  | .error e => (apologyString, [logMessage e])

/-! ### Helper lemmas -/

theorem digitChar_isDigit (n : Nat) : (digitChar n).isDigit = true := by
  have h : n % 10 < 10 := Nat.mod_lt _ (by norm_num)
  have H : ∀ m, m < 10 → (Char.ofNat (48 + m)).isDigit = true := by decide
  exact H _ h

theorem natDigits_isDigit (n : Nat) : ∀ c ∈ natDigits n, c.isDigit = true := by
  induction n using Nat.strong_induction_on with
  | _ n ih =>
    intro c hc
    rw [natDigits] at hc
    by_cases h : n < 10
    · simp [h] at hc
      subst hc; exact digitChar_isDigit n
    · simp [h, List.mem_append] at hc
      rcases hc with hc | hc
      · exact ih (n / 10) (Nat.div_lt_self (Nat.pos_of_ne_zero (by omega)) (by norm_num)) c hc
      · subst hc; exact digitChar_isDigit _

/-- The shape of a `.2f`-rendered value: an integer part free of decimal
points, a point, then exactly two digit characters. -/
theorem formatTwoDec_shape (q : ℚ) :
    ∃ ip c1 c2, formatTwoDec q = ip ++ "." ++ String.mk [c1, c2]
      ∧ c1.isDigit = true ∧ c2.isDigit = true ∧ '.' ∉ ip.data := by
  refine ⟨(if roundHalfEven (q * 100) < 0 then "-" else "")
        ++ natToStr ((roundHalfEven (q * 100)).natAbs / 100),
      digitChar ((roundHalfEven (q * 100)).natAbs % 100 / 10),
      digitChar ((roundHalfEven (q * 100)).natAbs % 10),
      rfl, digitChar_isDigit _, digitChar_isDigit _, ?_⟩
  intro hmem
  rw [String.data_append] at hmem
  rcases List.mem_append.mp hmem with hm | hm
  · by_cases h : roundHalfEven (q * 100) < 0 <;> simp [h] at hm
  · have := natDigits_isDigit ((roundHalfEven (q * 100)).natAbs / 100) '.' hm
    simp at this

/-- Rendering of an entry whose dictionaries hold exactly the keys the code
reads: every lookup succeeds and the report applies `kelvin_to_celsius` to
the four temperatures and the rain default-and-scale computation. -/
theorem renderForecast_explicit (ref : String) (t tn tx fl sp dg : ℚ)
    (rain : List (String × ℚ)) (hum : ℚ) (st loc : String) :
    renderForecast loc ⟨ref,
        [("temp", t), ("temp_min", tn), ("temp_max", tx), ("feels_like", fl)],
        [("speed", sp), ("deg", dg)], rain, hum, st⟩
      = .ok (FORECAST_TEMPLATE_format loc ref
          (kelvin_to_celsius t) (kelvin_to_celsius tn) (kelvin_to_celsius tx)
          (kelvin_to_celsius fl) (dictGetD rain "3h" 0 * 100) sp dg hum st) := rfl

theorem windowFormulaRaw_nonpos {h : ℚ} (hneg : h < 0) : windowFormulaRaw h ≤ 0 := by
  have hq : h / 3 < (0 : ℚ) := by linarith
  have : ⌊h / 3⌋ < (0 : ℤ) := Int.floor_lt.mpr (by exact_mod_cast hq)
  unfold windowFormulaRaw
  omega

theorem windowFormulaRaw_lt_zero_iff (h : ℚ) : windowFormulaRaw h < 0 ↔ h < -3 := by
  unfold windowFormulaRaw
  constructor
  · intro hlt
    have : ⌊h / 3⌋ < -1 := by omega
    have hq : h / 3 < ((-1 : ℤ) : ℚ) := Int.floor_lt.mp this
    push_cast at hq
    linarith
  · intro hlt
    have hq : h / 3 < ((-1 : ℤ) : ℚ) := by push_cast; linarith
    have : ⌊h / 3⌋ < -1 := Int.floor_lt.mpr hq
    omega

/-! ### Claims -/

/-- C1: for every end time that parses (after Z-normalization) to a
timezone-aware datetime, `get_num_forecasts` returns
`max(0, floor(hours_until_target / 3) + 1)` where `hours_until_target` is
the gap from `now` to the target in hours; a gap of zero yields 1 and a gap
of exactly 12 hours yields 5. -/
theorem get_num_forecasts_window_formula (s : String) (now : ℚ)
    (dt : PyDateTime) (off : Int)
    (hp : fromisoformat (replaceZ s) = some dt)
    (ho : dt.tzOffsetMicros = some off) :
    get_num_forecasts s now
        = .ok (max 0 (⌊(utcEpochSeconds dt off - now) / 3600 / 3⌋ + 1))
      ∧ (utcEpochSeconds dt off = now → get_num_forecasts s now = .ok 1)
      ∧ (utcEpochSeconds dt off = now + 12 * 3600 →
          get_num_forecasts s now = .ok 5) := by
  have hmain : get_num_forecasts s now
      = .ok (max 0 (windowFormulaRaw ((utcEpochSeconds dt off - now) / 3600))) := by
    simp [get_num_forecasts, hp, ho]
  refine ⟨by simpa [windowFormulaRaw] using hmain, ?_, ?_⟩
  · intro he
    rw [hmain, he]
    norm_num [windowFormulaRaw]
  · intro he
    rw [hmain, he]
    have h12 : (now + 12 * 3600 - now) / 3600 = (12 : ℚ) := by ring_nf
    rw [h12]
    norm_num [windowFormulaRaw]

/-- C1 witness: a concrete aware end time equal to `now` yields 1. -/
theorem get_num_forecasts_window_formula_witness :
    fromisoformat (replaceZ "2023-10-01T12:00:00Z")
        = some ⟨2023, 10, 1, 12, 0, 0, 0, some 0⟩
      ∧ get_num_forecasts "2023-10-01T12:00:00Z"
          (utcEpochSeconds ⟨2023, 10, 1, 12, 0, 0, 0, some 0⟩ 0) = .ok 1 := by
  have hp : fromisoformat (replaceZ "2023-10-01T12:00:00Z")
      = some ⟨2023, 10, 1, 12, 0, 0, 0, some 0⟩ := by decide
  exact ⟨hp,
    (get_num_forecasts_window_formula _ _ _ _ hp rfl).2.1 rfl⟩

/-- C2: the try/except boundary of `get_weather_forecast`: when any step of
the body (window computation, fetch, selection, conversion, formatting)
fails with an error, the function returns exactly the fixed apology string
and logs the original error; when the body succeeds nothing is logged and
the report is returned.  The model is a total function: no exception
escapes. -/
theorem get_weather_forecast_error_boundary (location end_time : String)
    (now : ℚ) (provider : Int → Except String (List ForecastEntry)) :
    (∀ e, weatherBody location end_time now provider = .error e →
        get_weather_forecast location end_time now provider
          = (apologyString, [logMessage e]))
      ∧ (∀ ans, weatherBody location end_time now provider = .ok ans →
          get_weather_forecast location end_time now provider = (ans, [])) := by
  constructor
  · intro e he
    simp [get_weather_forecast, he]
  · intro ans ha
    simp [get_weather_forecast, ha]

/-- C2 witness: a malformed end time makes the body fail, and the call
returns the apology string with the error logged. -/
theorem get_weather_forecast_error_boundary_witness :
    weatherBody "London,GB" "not-a-time" 0 (fun _ => .error "network down")
        = .error "Invalid isoformat string: not-a-time"
      ∧ get_weather_forecast "London,GB" "not-a-time" 0 (fun _ => .error "network down")
        = (apologyString, [logMessage "Invalid isoformat string: not-a-time"]) :=
  ⟨rfl,
    (get_weather_forecast_error_boundary "London,GB" "not-a-time" 0
        (fun _ => .error "network down")).1 _ rfl⟩

/-- C3: when the provider returns `N ≥ 1` entries the report is built from
the entry at index `N - 1` (the last one, `forecasts[-1]`); when it returns
zero entries the selection step fails (an IndexError), surfaced as the
apology string. -/
theorem get_weather_forecast_selects_last_entry (location end_time : String)
    (now : ℚ) (provider : Int → Except String (List ForecastEntry))
    (limit : Int) (entries : List ForecastEntry)
    (hnum : get_num_forecasts end_time now = .ok limit)
    (hprov : provider limit = .ok entries) :
    (entries ≠ [] → ∃ f, entries[entries.length - 1]? = some f
        ∧ entries.getLast? = some f
        ∧ get_weather_forecast location end_time now provider
          = (match renderForecast location f with
             | .ok ans => (ans, [])
             | .error e => (apologyString, [logMessage e])))
      ∧ (entries = [] →
          get_weather_forecast location end_time now provider
            = (apologyString, [logMessage "IndexError: list index out of range"])) := by
  constructor
  · intro hne
    refine ⟨entries.getLast hne, ?_, List.getLast?_eq_getLast_of_ne_nil hne, ?_⟩
    · rw [← List.getLast?_eq_getElem? entries]
      exact List.getLast?_eq_getLast_of_ne_nil hne
    · simp only [get_weather_forecast, weatherBody, hnum, hprov,
        List.getLast?_eq_getLast_of_ne_nil hne]
  · intro he
    subst he
    simp [get_weather_forecast, weatherBody, hnum, hprov]

/-- C3 witness: with a two-entry provider response the report comes from
the second (index 1 = N - 1) entry. -/
theorem get_weather_forecast_selects_last_entry_witness :
    (([⟨"t1", [], [], [], 0, "a"⟩, ⟨"t2", [], [], [], 0, "b"⟩] : List ForecastEntry) ≠ [])
      ∧ ∃ f, ([⟨"t1", [], [], [], 0, "a"⟩, ⟨"t2", [], [], [], 0, "b"⟩]
            : List ForecastEntry)[([⟨"t1", [], [], [], 0, "a"⟩, ⟨"t2", [], [], [], 0, "b"⟩]
            : List ForecastEntry).length - 1]? = some f
        ∧ ([⟨"t1", [], [], [], 0, "a"⟩, ⟨"t2", [], [], [], 0, "b"⟩]
            : List ForecastEntry).getLast? = some f
        ∧ get_weather_forecast "London,GB" "2023-10-01T12:00:00Z"
            (utcEpochSeconds ⟨2023, 10, 1, 12, 0, 0, 0, some 0⟩ 0)
            (fun _ => .ok [⟨"t1", [], [], [], 0, "a"⟩, ⟨"t2", [], [], [], 0, "b"⟩])
          = (match renderForecast "London,GB" f with
             | .ok ans => (ans, [])
             | .error e => (apologyString, [logMessage e])) := by
  have hnum : get_num_forecasts "2023-10-01T12:00:00Z"
      (utcEpochSeconds ⟨2023, 10, 1, 12, 0, 0, 0, some 0⟩ 0) = .ok 1 := by
    have hp : fromisoformat (replaceZ "2023-10-01T12:00:00Z")
        = some ⟨2023, 10, 1, 12, 0, 0, 0, some 0⟩ := by decide
    simp [get_num_forecasts, hp, windowFormulaRaw]
  have h := (get_weather_forecast_selects_last_entry "London,GB"
      "2023-10-01T12:00:00Z" (utcEpochSeconds ⟨2023, 10, 1, 12, 0, 0, 0, some 0⟩ 0)
      (fun _ => .ok [⟨"t1", [], [], [], 0, "a"⟩, ⟨"t2", [], [], [], 0, "b"⟩]) 1
      [⟨"t1", [], [], [], 0, "a"⟩, ⟨"t2", [], [], [], 0, "b"⟩] hnum rfl).1
    (by simp)
  exact ⟨by simp, h⟩
/-- C4 counterexample: the claim asserts a malformed `end_time` makes the
parse error propagate uncaught even on the forecast-fetch path; in the code
the resolver call sits inside the try block of `get_weather_forecast`, so
on that path the error is caught, logged, and converted to the apology
string instead of propagating. -/
theorem parse_error_caught_on_fetch_path_cex :
    get_num_forecasts "not-a-time" 0 = .error "Invalid isoformat string: not-a-time"
      ∧ get_weather_forecast "London,GB" "not-a-time" 0 (fun _ => .error "unreached")
        = (apologyString, [logMessage "Invalid isoformat string: not-a-time"]) :=
  ⟨rfl, rfl⟩

/-- C4 (amended): a malformed `end_time` makes `get_num_forecasts` fail
with the parse error (uncaught there, so it propagates when the resolver is
called directly); on the forecast-fetch path this error is caught by the
try/except of `get_weather_forecast` and converted to the fixed apology
string, with the original error logged. -/
theorem parse_error_propagation_amended (s : String) (now : ℚ)
    (hp : fromisoformat (replaceZ s) = none) :
    get_num_forecasts s now = .error ("Invalid isoformat string: " ++ replaceZ s)
      ∧ ∀ (location : String) (provider : Int → Except String (List ForecastEntry)),
          get_weather_forecast location s now provider
            = (apologyString,
               [logMessage ("Invalid isoformat string: " ++ replaceZ s)]) := by
  have hnum : get_num_forecasts s now
      = .error ("Invalid isoformat string: " ++ replaceZ s) := by
    simp [get_num_forecasts, hp]
  exact ⟨hnum, fun location provider => by
    simp [get_weather_forecast, weatherBody, hnum]⟩

/-- C4 witness: the amended behaviour at a concrete malformed input. -/
theorem parse_error_propagation_amended_witness :
    fromisoformat (replaceZ "tomorrow at 3pm") = none
      ∧ get_num_forecasts "tomorrow at 3pm" 0
        = .error ("Invalid isoformat string: " ++ replaceZ "tomorrow at 3pm")
      ∧ get_weather_forecast "London,GB" "tomorrow at 3pm" 0 (fun _ => .error "x")
        = (apologyString,
           [logMessage ("Invalid isoformat string: " ++ replaceZ "tomorrow at 3pm")]) := by
  have hp : fromisoformat (replaceZ "tomorrow at 3pm") = none := by decide
  exact ⟨hp, (parse_error_propagation_amended "tomorrow at 3pm" 0 hp).1,
    (parse_error_propagation_amended "tomorrow at 3pm" 0 hp).2 "London,GB" (fun _ => .error "x")⟩

/-- C5 counterexample: the claim asserts some slightly negative hour gap
makes `floor(h / 3) + 1` equal 1; in fact the formula is never 1 for any
negative gap (at the specification's own example `h = -1` it is 0). -/
theorem window_formula_negative_never_one_cex :
    windowFormulaRaw (-1) = 0
      ∧ ¬ ∃ h : ℚ, h < 0 ∧ windowFormulaRaw h = 1 := by
  constructor
  · unfold windowFormulaRaw
    norm_num
  · rintro ⟨h, hneg, heq⟩
    have := windowFormulaRaw_nonpos hneg
    omega

/-- C5 (amended): for every slightly negative hour gap (between -3
inclusive and 0) the formula `floor(h / 3) + 1` yields 0, not 1; and the
`max(0, ...)` clamp changes the value exactly when the gap is below -3. -/
theorem window_formula_slightly_negative_amended (h : ℚ) :
    ((-3 ≤ h ∧ h < 0) → windowFormulaRaw h = 0)
      ∧ (max 0 (windowFormulaRaw h) ≠ windowFormulaRaw h ↔ h < -3) := by
  constructor
  · rintro ⟨h3, h0⟩
    unfold windowFormulaRaw
    have hfl : ⌊h / 3⌋ = -1 := by
      rw [Int.floor_eq_iff]
      constructor
      · push_cast
        linarith
      · push_cast
        linarith
    omega
  · have hiff := windowFormulaRaw_lt_zero_iff h
    constructor
    · intro hne
      by_contra hc
      have hge : ¬ windowFormulaRaw h < 0 := fun hlt => hc (hiff.mp hlt)
      exact hne (max_eq_right_iff.mpr (by omega))
    · intro hlt
      have : windowFormulaRaw h < 0 := hiff.mpr hlt
      intro hmax
      rw [max_eq_right_iff] at hmax
      omega

/-- C5 witness for the amended claim: at gap -1 the formula yields 0, and
at gap -4 the clamp changes the value. -/
theorem window_formula_slightly_negative_amended_witness :
    windowFormulaRaw (-1) = 0
      ∧ max 0 (windowFormulaRaw (-4)) ≠ windowFormulaRaw (-4) :=
  ⟨(window_formula_slightly_negative_amended (-1)).1 ⟨by norm_num, by norm_num⟩,
    (window_formula_slightly_negative_amended (-4)).2.mpr (by norm_num)⟩

/-- C6: the reported rain chance is `rain_fraction * 100` where the rain
fraction defaults to 0 when the bucket has no 3h rain field: an empty rain
dictionary yields 0, a 3h value of 0.4 yields 40, and the rendered report
carries exactly that computation. -/
theorem rain_chance_conversion :
    (∀ d : List (String × ℚ), dictGetD d "3h" 0 * 100 = (dictGet d "3h").getD 0 * 100)
      ∧ dictGetD [] "3h" 0 * 100 = 0
      ∧ dictGetD [("3h", (0.4 : ℚ))] "3h" 0 * 100 = 40
      ∧ (∀ (ref : String) (t tn tx fl sp dg : ℚ) (rain : List (String × ℚ))
          (hum : ℚ) (st loc : String),
          renderForecast loc ⟨ref,
              [("temp", t), ("temp_min", tn), ("temp_max", tx), ("feels_like", fl)],
              [("speed", sp), ("deg", dg)], rain, hum, st⟩
            = .ok (FORECAST_TEMPLATE_format loc ref
                (kelvin_to_celsius t) (kelvin_to_celsius tn) (kelvin_to_celsius tx)
                (kelvin_to_celsius fl) (dictGetD rain "3h" 0 * 100) sp dg hum st)) := by
  refine ⟨fun d => rfl, by norm_num [dictGetD, dictGet], ?_, ?_⟩
  · have : dictGetD [("3h", (0.4 : ℚ))] "3h" 0 = 0.4 := by
      simp [dictGetD, dictGet, List.find?]
    rw [this]
    norm_num
  · intro ref t tn tx fl sp dg rain hum st loc
    exact renderForecast_explicit ref t tn tx fl sp dg rain hum st loc

/-- C7: `kelvin_to_celsius` subtracts 273.15 (273.15 K maps to 0 °C and
373.15 K to 100 °C) and the report applies it to all four temperature
fields of the selected entry. -/
theorem kelvin_to_celsius_spec :
    kelvin_to_celsius 273.15 = 0
      ∧ kelvin_to_celsius 373.15 = 100
      ∧ (∀ k : ℚ, kelvin_to_celsius k = k - 273.15)
      ∧ (∀ (ref : String) (t tn tx fl sp dg : ℚ) (rain : List (String × ℚ))
          (hum : ℚ) (st loc : String),
          renderForecast loc ⟨ref,
              [("temp", t), ("temp_min", tn), ("temp_max", tx), ("feels_like", fl)],
              [("speed", sp), ("deg", dg)], rain, hum, st⟩
            = .ok (FORECAST_TEMPLATE_format loc ref
                (kelvin_to_celsius t) (kelvin_to_celsius tn) (kelvin_to_celsius tx)
                (kelvin_to_celsius fl) (dictGetD rain "3h" 0 * 100) sp dg hum st)) := by
  refine ⟨by norm_num [kelvin_to_celsius], by norm_num [kelvin_to_celsius],
    fun k => rfl, ?_⟩
  intro ref t tn tx fl sp dg rain hum st loc
  exact renderForecast_explicit ref t tn tx fl sp dg rain hum st loc

/-- C8: the report formatter is the fixed multi-line template in which the
four temperature fields go through the two-decimal rendering and the rain
chance, wind speed, wind direction and humidity are passed through; the
two-decimal rendering always produces exactly two digit characters after
the decimal point, whatever the precision of the input. -/
theorem template_two_decimal_places :
    (∀ (loc time : String) (t tn tx fl rc ws wd hu : ℚ) (st : String),
        FORECAST_TEMPLATE_format loc time t tn tx fl rc ws wd hu st
          = "\nThe weather forecast for " ++ loc ++ " at " ++ time
              ++ " is as follows:\n- Temperature: " ++ formatTwoDec t
              ++ "°C.\n- Min Temperature: " ++ formatTwoDec tn
              ++ "°C.\n- Max Temperature: " ++ formatTwoDec tx
              ++ "°C.\n- Feels Like Temperature: " ++ formatTwoDec fl
              ++ "°C.\n- Rain: " ++ pyStr rc
              ++ "%\n- Winds: " ++ pyStr ws ++ " m/s " ++ pyStr wd
              ++ "°\n- Humidity: " ++ pyStr hu
              ++ "%\n- Status: " ++ st ++ "\n")
      ∧ (∀ q : ℚ, ∃ ip c1 c2, formatTwoDec q = ip ++ "." ++ String.mk [c1, c2]
          ∧ c1.isDigit = true ∧ c2.isDigit = true ∧ '.' ∉ ip.data) :=
  ⟨fun loc time t tn tx fl rc ws wd hu st => rfl, formatTwoDec_shape⟩

/-- C9: a syntactically valid but timezone-naive end time parses, yet
`get_num_forecasts` then fails (the aware-minus-naive subtraction raises a
TypeError), so the resolver effectively requires a timezone-aware
timestamp. -/
theorem naive_end_time_raises (s : String) (dt : PyDateTime)
    (hp : fromisoformat (replaceZ s) = some dt)
    (ho : dt.tzOffsetMicros = none) (now : ℚ) :
    get_num_forecasts s now
      = .error "can\x27t subtract offset-naive and offset-aware datetimes" := by
  simp [get_num_forecasts, hp, ho]

/-- C9 witness: the naive timestamp 2023-10-01T12:00:00 parses but the
resolver fails on it. -/
theorem naive_end_time_raises_witness :
    fromisoformat (replaceZ "2023-10-01T12:00:00")
        = some ⟨2023, 10, 1, 12, 0, 0, 0, none⟩
      ∧ get_num_forecasts "2023-10-01T12:00:00" 0
        = .error "can\x27t subtract offset-naive and offset-aware datetimes" := by
  have hp : fromisoformat (replaceZ "2023-10-01T12:00:00")
      = some ⟨2023, 10, 1, 12, 0, 0, 0, none⟩ := by decide
  exact ⟨hp, naive_end_time_raises _ _ hp rfl 0⟩

/-- C10: the Z-normalization replaces every occurrence of the character Z,
not only a trailing UTC designator; on an input with a non-trailing Z the
globally replaced string differs from the trailing-only normalization and
parses successfully while the trailing-only form does not; on a trailing-Z
input the two normalizations agree. -/
theorem replaceZ_global_replacement :
    replaceZ "ZZ" = "+00:00+00:00"
      ∧ replaceZ "2023-10-01T12:00Z:00" = "2023-10-01T12:00+00:00:00"
      ∧ replaceTrailingZOnly "2023-10-01T12:00Z:00" = "2023-10-01T12:00Z:00"
      ∧ fromisoformat (replaceZ "2023-10-01T12:00Z:00")
          = some ⟨2023, 10, 1, 12, 0, 0, 0, some 0⟩
      ∧ fromisoformat (replaceTrailingZOnly "2023-10-01T12:00Z:00") = none
      ∧ replaceZ "2023-10-01T12:00:00Z" = replaceTrailingZOnly "2023-10-01T12:00:00Z" := by
  refine ⟨by decide, by decide, by decide, by decide, by decide, by decide⟩
